import Mathlib

/-!
Shallow embedding of the Waveshare USB-CAN link driver
(`waveshare_can.py`): the frame codec (the frame-building part of
`WaveshareCAN.send` and the byte-consuming part of `WaveshareCAN.receive`),
the session-state guards, the receive-loop start logic and the receive
worker.  Machine bytes are `Nat` with explicit masking exactly where the
source masks.  Serial reads are modelled over byte lists: a `read(n)`
takes at most the first `n` bytes of what remains, and an exhausted
stream yields the empty read that `pyserial` returns on timeout.
-/

namespace WaveshareCAN

/-- Python exception outcomes distinguished by the source:
`Exception("Serial port is not open...")` (lines 45 and 79), `TypeError`
(line 54), `ValueError` raised by `bytes(...)` or `str.encode("ascii")`
on out-of-range values (lines 48 and 50), `ValueError("Invalid CMD
byte")` (line 90), `ValueError("Invalid tail byte")` (line 98), and
`IndexError` from `idl[0]` or `idh[0]` applied to an empty bytes object
(line 100). -/
inductive PyError
  | notOpen
  | typeError
  | badByteValue
  | invalidCommand
  | invalidTail
  | indexError
  deriving Repr, DecidableEq

/-- The duck-typed `data` argument of `send` (lines 47-54): text,
`list[int]`, `bytes`/`bytearray`, or anything else (which raises
`TypeError`). -/
inductive PyData
  | str (s : String)
  | list (l : List Nat)
  | bytes (b : List Nat)
  | other
  deriving Repr

/-- Lines 47-54 of `send`: convert `data` to a byte string.
`str.encode("ascii")` fails (`UnicodeEncodeError`, a `ValueError`) on a
non-ASCII character; `bytes(list)` fails (`ValueError`) when an entry is
not in 0..255; any other type raises `TypeError`. -/
def normalizeData : PyData → Except PyError (List Nat)
  | .str s =>
    if s.toList.all (fun c => c.toNat < 128) then .ok (s.toList.map Char.toNat)
    else .error .badByteValue
  | .list l =>
    if l.all (fun b => b < 256) then .ok l else .error .badByteValue
  | .bytes b => .ok b
  | .other => .error .typeError

/-- A payload is well-typed in the sense of the spec (bytes, list of
small integers, or ASCII text) exactly when the normalization of lines
47-54 succeeds. -/
def wellTyped : PyData → Bool
  | .str s => s.toList.all (fun c => c.toNat < 128)
  | .list l => l.all (fun b => b < 256)
  | .bytes _ => true
  | .other => false

/-- Lines 56-59 of `send`: truncate the payload to its first 8 bytes, or
right-pad it with zero bytes to length 8. -/
def padTrunc (data : List Nat) : List Nat :=
  if data.length > 8 then data.take 8
  else if data.length < 8 then data ++ List.replicate (8 - data.length) 0
  else data

/-- Lines 61-67 of `send`: the 13-byte wire frame
`0xAA, 0xC8, can_id & 0xFF, (can_id >> 8) & 0xFF, <data>, 0x55`. -/
def frameBytes (can_id : Nat) (data : List Nat) : List Nat :=
  [0xAA, 0xC8, can_id &&& 0xFF, (can_id >>> 8) &&& 0xFF] ++ data ++ [0x55]

/-- The pure frame-building portion of `send` (lines 47-67): normalize,
truncate/pad, frame.  The serial write of the result is modelled in
`send` below. -/
def encode (can_id : Nat) (data : PyData) : Except PyError (List Nat) :=
  match normalizeData data with
  | .error e => .error e
  | .ok d => .ok (frameBytes can_id (padTrunc d))

/-- Lines 81-86 of `receive`: read single bytes, discarding each, until
one equals `0xAA`.  On a stream that never again yields a byte the
source loops forever (`continue` on every empty read); that divergence
is `none`. -/
def syncScan : List Nat → Option (List Nat)
  | [] => none
  | b :: rest => if b = 0xAA then some rest else syncScan rest

/-- Lines 81-103 of `receive`, driven by a byte stream in which every
`read(n)` returns the first `min n length` bytes of what remains (the
behaviour of a port whose input arrives in order and then runs out:
short or empty reads only at exhaustion).  `none` is the sync scan
never finding `0xAA`, where the source blocks forever; otherwise the
result of the decode attempt is paired with the bytes left unconsumed. -/
def receiveFrom (s : List Nat) : Option (Except PyError (Nat × List Nat) × List Nat) :=
  match syncScan s with
  | none => none
  | some s1 =>
    let cmd := s1.take 1
    let s2 := s1.drop 1
    match cmd with
    | [] => some (.error .invalidCommand, s2)
    | c :: _ =>
      if c ≠ 0xC8 then some (.error .invalidCommand, s2)
      else
        let idl := s2.take 1
        let s3 := s2.drop 1
        let idh := s3.take 1
        let s4 := s3.drop 1
        let data := s4.take 8
        let s5 := s4.drop 8
        let tl := s5.take 1
        let s6 := s5.drop 1
        match tl with
        | [] => some (.error .invalidTail, s6)
        | t :: _ =>
          if t ≠ 0x55 then some (.error .invalidTail, s6)
          else
            match idl, idh with
            | il :: _, ih :: _ => some (.ok (il ||| (ih <<< 8), data), s6)
            | _, _ => some (.error .indexError, s6)

/-- Lines 88-103 of `receive` with the result of each serial read passed
explicitly, modelling a transport whose reads can time out
independently of one another: `cmd`, `idl`, `idh`, `tl` are the 0- or
1-byte results of the four `read(1)` calls and `data` the at-most-8-byte
result of `read(8)`.  The check order mirrors the source: the command
check (line 89), the tail check (line 97), then the unguarded `idl[0]`
and `idh[0]` (line 100). -/
def receiveAfterSync (cmd idl idh data tl : List Nat) :
    Except PyError (Nat × List Nat) :=
  match cmd with
  | [] => .error .invalidCommand
  | c :: _ =>
    if c ≠ 0xC8 then .error .invalidCommand
    else
      match tl with
      | [] => .error .invalidTail
      | t :: _ =>
        if t ≠ 0x55 then .error .invalidTail
        else
          match idl, idh with
          | il :: _, ih :: _ => .ok (il ||| (ih <<< 8), data)
          | _, _ => .error .indexError

/-- The `serial.Serial` handle: its open flag, the bytes pending to be
read, and the bytes written so far. -/
structure SerialPort where
  is_open : Bool
  rxBuf : List Nat
  txBuf : List Nat
  deriving Repr, DecidableEq

/-- The mutable fields of a `WaveshareCAN` instance: `self.ser` (`None`
before `open`), `self._rx_thread` (`none` before the first
`start_receive_loop`, otherwise `some alive`), and `self._rx_running`. -/
structure CANState where
  ser : Option SerialPort
  rx_thread : Option Bool
  rx_running : Bool
  deriving Repr, DecidableEq

/-- The state `__init__` leaves behind: no port handle, no worker. -/
def initState : CANState :=
  { ser := none, rx_thread := none, rx_running := false }

/-- The guard of lines 44-45 and 78-79: `self.ser` exists and is open. -/
def isOpen (st : CANState) : Bool :=
  match st.ser with
  | none => false
  | some p => p.is_open

/-- `open` (lines 23-26): acquire the port handle, with `rx` standing
for the bytes the device will deliver. -/
def openPort (st : CANState) (rx : List Nat) : CANState :=
  { st with ser := some { is_open := true, rxBuf := rx, txBuf := [] } }

/-- `close` (lines 28-35): clear the run flag, join a live worker (after
which it is no longer alive), and close an open port. -/
def close (st : CANState) : CANState :=
  let st1 : CANState := { st with rx_running := false }
  let st2 : CANState :=
    match st1.rx_thread with
    | some true => { st1 with rx_thread := some false }
    | _ => st1
  match st2.ser with
  | some p =>
    if p.is_open then { st2 with ser := some { p with is_open := false } } else st2
  | none => st2

/-- `send` (lines 37-70): the not-open guard, payload normalization,
truncate/pad, frame build, then the write of the 13 frame bytes to the
port.  Returns the Python outcome together with the state after the
call (unchanged whenever an exception is raised). -/
def send (st : CANState) (can_id : Nat) (data : PyData) :
    Except PyError Unit × CANState :=
  match st.ser with
  | none => (.error .notOpen, st)
  | some p =>
    if p.is_open = false then (.error .notOpen, st)
    else
      match normalizeData data with
      | .error e => (.error e, st)
      | .ok d =>
        (.ok (),
         { st with ser := some { p with txBuf := p.txBuf ++ frameBytes can_id (padTrunc d) } })

/-- `receive` (lines 72-103): the not-open guard, then the decode
attempt of `receiveFrom` against the bytes pending on the port.  `none`
is the source blocking forever inside the sync scan. -/
def receive (st : CANState) : Option (Except PyError (Nat × List Nat) × CANState) :=
  match st.ser with
  | none => some (.error .notOpen, st)
  | some p =>
    if p.is_open = false then some (.error .notOpen, st)
    else
      match receiveFrom p.rxBuf with
      | none => none
      | some (r, rest) => some (r, { st with ser := some { p with rxBuf := rest } })

/-- What `start_receive_loop` reports: line 113 prints that the receive
loop is already running and returns without creating a thread;
otherwise a new worker thread is created and started (lines 116-123). -/
inductive StartMsg
  | alreadyRunning
  | started
  deriving Repr, DecidableEq

/-- `start_receive_loop` (lines 105-123): if `self._rx_thread` exists
and is alive, report and return with nothing changed; otherwise set the
run flag and start a fresh worker thread. -/
def start_receive_loop (st : CANState) : StartMsg × CANState :=
  match st.rx_thread with
  | some true => (.alreadyRunning, st)
  | _ => (.started, { st with rx_running := true, rx_thread := some true })

/-- How one run of `_receive_worker` can end. -/
inductive WorkerExit
  | errorCaught (e : PyError)
  | flagStopped
  | blocked
  | fuelOut
  deriving Repr, DecidableEq

/-- `_receive_worker` (lines 125-132) with explicit fuel.  The single
`try` wraps the whole `while` loop, so the first exception escaping
`receive` reaches the `except`, is printed, and the function returns.
`callback(can_id, data)` is modelled by appending the delivered pair to
`log`. -/
def receive_worker : Nat → CANState → List (Nat × List Nat) →
    WorkerExit × CANState × List (Nat × List Nat)
  | 0, st, log => (.fuelOut, st, log)
  | fuel + 1, st, log =>
    if st.rx_running = false then (.flagStopped, st, log)
    else
      match receive st with
      | none => (.blocked, st, log)
      | some (.error e, st1) => (.errorCaught e, st1, log)
      | some (.ok (i, d), st1) => receive_worker fuel st1 (log ++ [(i, d)])

/-- A list of length 8 is a literal eight-element list. -/
lemma length_eight_exists (l : List Nat) (hl : l.length = 8) :
    ∃ a b c d e f g h, l = [a, b, c, d, e, f, g, h] := by
  match l, hl with
  | [a, b, c, d, e, f, g, h], _ => exact ⟨a, b, c, d, e, f, g, h, rfl⟩

/-- Lines 56-59 always leave exactly 8 payload bytes. -/
lemma padTrunc_length (d : List Nat) : (padTrunc d).length = 8 := by
  unfold padTrunc
  split
  · simp only [List.length_take]
    omega
  · split
    · simp only [List.length_append, List.length_replicate]
      omega
    · omega

/-- For a payload of at most 8 bytes, lines 56-59 right-pad with zero
bytes to length 8. -/
lemma padTrunc_of_le (d : List Nat) (h : d.length ≤ 8) :
    padTrunc d = d ++ List.replicate (8 - d.length) 0 := by
  unfold padTrunc
  split
  · omega
  · split
    · rfl
    · have : d.length = 8 := by omega
      simp [this]

/-- The sync scan of lines 81-86 stops at an immediate start sentinel. -/
lemma syncScan_cons_aa (s : List Nat) : syncScan (0xAA :: s) = some s := by
  simp [syncScan]

/-- The sync scan discards a non-sentinel byte and keeps scanning. -/
lemma receiveFrom_cons_skip (b : Nat) (s : List Nat) (hb : b ≠ 0xAA) :
    receiveFrom (b :: s) = receiveFrom s := by
  unfold receiveFrom
  rw [show syncScan (b :: s) = syncScan s from by simp [syncScan, hb]]

/-- The sync scan discards any run of non-sentinel bytes. -/
lemma receiveFrom_junk (junk s : List Nat) (hjunk : ∀ b ∈ junk, b ≠ 0xAA) :
    receiveFrom (junk ++ s) = receiveFrom s := by
  induction junk with
  | nil => rfl
  | cons b junk ih =>
    rw [List.cons_append, receiveFrom_cons_skip b _ (hjunk b (by simp))]
    exact ih fun x hx => hjunk x (by simp [hx])

/-- Decoding a well-formed 13-byte frame at the head of the stream
yields the recombined identifier and the 8 payload bytes, and consumes
exactly the frame. -/
lemma receiveFrom_frame (il ih : Nat) (d suffix : List Nat) (hd : d.length = 8) :
    receiveFrom (0xAA :: 0xC8 :: il :: ih :: (d ++ 0x55 :: suffix)) =
      some (.ok (il ||| (ih <<< 8), d), suffix) := by
  obtain ⟨a, b, c, e, f, g, h1, h2, rfl⟩ := length_eight_exists d hd
  rfl

/-- Masking with `0xFF` is reduction modulo 256. -/
lemma and_255_eq_mod (x : Nat) : x &&& 255 = x % 256 := by
  have h := Nat.and_pow_two_sub_one_eq_mod x 8
  norm_num at h
  exact h

/-- Shifting right by 8 is division by 256. -/
lemma shiftRight_8_eq_div (x : Nat) : x >>> 8 = x / 256 := by
  have h := Nat.shiftRight_eq_div_pow x 8
  norm_num at h
  exact h

/-- For an 11-bit identifier, splitting into low and high bytes and
recombining is the identity. -/
lemma recombine_lt (i : Nat) (hi : i < 0x800) :
    (i &&& 0xFF) ||| (((i >>> 8) &&& 0xFF) <<< 8) = i := by
  rw [and_255_eq_mod, shiftRight_8_eq_div, and_255_eq_mod, Nat.shiftLeft_eq]
  have h1 : i / 256 % 256 = i / 256 := Nat.mod_eq_of_lt (by omega)
  rw [h1]
  have h2 : (2 : Nat) ^ 8 = 256 := by norm_num
  have h3 : i % 256 < 2 ^ 8 := by rw [h2]; omega
  have h4 := Nat.mul_add_lt_is_or h3 (i / 256)
  rw [Nat.lor_comm, Nat.mul_comm, ← h4, h2]
  omega

/-- Decoding the encoding of an 11-bit identifier with an 8-byte payload,
followed by any suffix, returns the identifier and payload and leaves
the suffix. -/
lemma receiveFrom_encode (i : Nat) (d suffix : List Nat)
    (hi : i ≤ 0x7FF) (hd : d.length = 8) :
    receiveFrom (frameBytes i d ++ suffix) = some (.ok (i, d), suffix) := by
  have key : frameBytes i d ++ suffix =
      0xAA :: 0xC8 :: (i &&& 0xFF) :: ((i >>> 8) &&& 0xFF) :: (d ++ 0x55 :: suffix) := by
    simp [frameBytes]
  rw [key, receiveFrom_frame _ _ _ _ hd, recombine_lt i (by omega)]

/-- Decoding the encoding of an 11-bit identifier with an 8-byte payload
returns the identifier and payload and consumes the whole stream. -/
lemma receiveFrom_encode_nil (i : Nat) (d : List Nat)
    (hi : i ≤ 0x7FF) (hd : d.length = 8) :
    receiveFrom (frameBytes i d) = some (.ok (i, d), []) := by
  have h := receiveFrom_encode i d [] hi hd
  rwa [List.append_nil] at h

/-- A start sentinel followed by a byte other than `0xC8` is reported as
an invalid command, consuming exactly those two bytes. -/
lemma receiveFrom_bad_cmd (x : Nat) (s : List Nat) (hx : x ≠ 0xC8) :
    receiveFrom (0xAA :: x :: s) = some (.error .invalidCommand, s) := by
  unfold receiveFrom
  rw [syncScan_cons_aa]
  simp [hx]

/-- After `close`, the guard of lines 44-45 and 78-79 fails. -/
lemma isOpen_close (st : CANState) : isOpen (close st) = false := by
  rcases st with ⟨ser, th, run⟩
  cases ser with
  | none =>
    cases th with
    | none => rfl
    | some a => cases a <;> rfl
  | some p =>
    rcases p with ⟨o, rx, tx⟩
    cases o <;> cases th with
    | none => rfl
    | some a => cases a <;> rfl

/-- Line 44-45: `send` on a session that is not open raises and changes
nothing. -/
lemma send_not_open (st : CANState) (i : Nat) (data : PyData)
    (h : isOpen st = false) :
    send st i data = (.error .notOpen, st) := by
  cases hs : st.ser with
  | none => simp [send, hs]
  | some p =>
    have hp : p.is_open = false := by simpa [isOpen, hs] using h
    simp [send, hs, hp]

/-- Line 78-79: `receive` on a session that is not open raises and
changes nothing. -/
lemma receive_not_open (st : CANState) (h : isOpen st = false) :
    receive st = some (.error .notOpen, st) := by
  cases hs : st.ser with
  | none => simp [receive, hs]
  | some p =>
    have hp : p.is_open = false := by simpa [isOpen, hs] using h
    simp [receive, hs, hp]

/-- The wire frame built by lines 61-67 always has exactly 13 bytes:
two header bytes, two identifier bytes, eight payload bytes and the
tail byte. -/
lemma frameBytes_padTrunc_length (i : Nat) (d : List Nat) :
    (frameBytes i (padTrunc d)).length = 13 := by
  simp [frameBytes, padTrunc_length]

/-- The wire frame depends on the identifier only through its low 16
bits. -/
lemma frameBytes_mod (i : Nat) (d : List Nat) :
    frameBytes i d = frameBytes (i % 0x10000) d := by
  unfold frameBytes
  simp only [and_255_eq_mod, shiftRight_8_eq_div]
  have h1 : i % 65536 % 256 = i % 256 := by omega
  have h2 : i % 65536 / 256 % 256 = i / 256 % 256 := by omega
  rw [h1, h2]

/-- A well-typed payload (bytes, list of small integers, or ASCII text)
normalizes without an error. -/
lemma normalizeData_ok_of_wellTyped (data : PyData) (h : wellTyped data = true) :
    ∃ d, normalizeData data = .ok d := by
  cases data with
  | str s => exact ⟨s.toList.map Char.toNat, if_pos h⟩
  | list l => exact ⟨l, if_pos h⟩
  | bytes b => exact ⟨b, rfl⟩
  | other => simp [wellTyped] at h

/-- Lines 56-59 as one statement: truncation when the payload is longer
than 8 bytes, zero-padding otherwise. -/
lemma padTrunc_cases (d : List Nat) :
    if d.length > 8 then padTrunc d = d.take 8
    else padTrunc d = d ++ List.replicate (8 - d.length) 0 := by
  split
  · next hlen => simp [padTrunc, hlen]
  · next hlen => exact padTrunc_of_le _ (by omega)

/-- C1 counterexample: the claim describes the encoder output as 12
bytes, but at identifier 1 with payload `[1, 2, 3]` the frame-building
portion of `send` emits this 13-byte sequence (2 header bytes, 2
identifier bytes, 8 payload bytes, 1 tail byte). -/
theorem c1_counterexample :
    encode 1 (.bytes [1, 2, 3]) =
      .ok [0xAA, 0xC8, 0x01, 0x00, 1, 2, 3, 0, 0, 0, 0, 0, 0x55] ∧
    ([0xAA, 0xC8, 0x01, 0x00, 1, 2, 3, 0, 0, 0, 0, 0, 0x55] : List Nat).length ≠ 12 :=
  ⟨rfl, by decide⟩

/-- C1 (amended: the encoder emits 13 bytes, not 12): for every
identifier in [0, 0x7FF] and every payload of length 0 to 8 bytes,
feeding the 13 bytes produced by the frame-building portion of `send`
to the byte-consuming portion of `receive` yields exactly the original
identifier together with the payload right-padded with zero bytes to
length 8, consuming the whole frame. -/
theorem c1_round_trip (i : Nat) (p : List Nat) (hi : i ≤ 0x7FF)
    (hlen : p.length ≤ 8) (_hbytes : ∀ b ∈ p, b < 256) :
    ∃ f, encode i (.bytes p) = .ok f ∧ f.length = 13 ∧
      receiveFrom f = some (.ok (i, p ++ List.replicate (8 - p.length) 0), []) := by
  refine ⟨frameBytes i (padTrunc p), rfl, frameBytes_padTrunc_length i p, ?_⟩
  have hpt := padTrunc_of_le p hlen
  have h := receiveFrom_encode_nil i (padTrunc p) hi (padTrunc_length p)
  rw [hpt] at h
  rw [hpt]
  exact h

/-- Witness for C1 at identifier 0x35E and payload `[72, 69]`. -/
theorem c1_round_trip_witness :
    ∃ f, encode 0x35E (.bytes [72, 69]) = .ok f ∧ f.length = 13 ∧
      receiveFrom f =
        some (.ok (0x35E, [72, 69] ++ List.replicate (8 - [72, 69].length) 0), []) :=
  c1_round_trip 0x35E [72, 69] (by norm_num) (by norm_num) (by decide)

/-- C2 counterexample: the claim calls the emitted sequence 12 bytes,
but the sequence it itself lists for `encode(0x35E, b"HELLO")` — which
is exactly what the code emits — has 13 bytes. -/
theorem c2_counterexample :
    encode 0x35E (.str "HELLO") =
      .ok [0xAA, 0xC8, 0x5E, 0x03, 0x48, 0x45, 0x4C, 0x4C, 0x4F, 0x00, 0x00, 0x00, 0x55] ∧
    ([0xAA, 0xC8, 0x5E, 0x03, 0x48, 0x45, 0x4C, 0x4C, 0x4F, 0x00, 0x00, 0x00, 0x55] :
        List Nat).length ≠ 12 :=
  ⟨rfl, by decide⟩

/-- C2 (amended: the sequence has 13 bytes, not 12): for every
identifier and every well-typed payload (bytes, list of small integers,
or ASCII text), the frame-building portion of `send` never fails and
emits exactly `0xAA, 0xC8, identifier low byte, identifier high byte`,
the payload truncated to its first 8 bytes if longer than 8 or
right-padded with zero bytes to length 8 if shorter, then `0x55` — 13
bytes in all; in particular `encode 0x35E "HELLO"` equals
`AA C8 5E 03 48 45 4C 4C 4F 00 00 00 55`. -/
theorem c2_encode_correct :
    (∀ (i : Nat) (data : PyData), wellTyped data = true →
      ∃ d, normalizeData data = .ok d ∧
        encode i data =
          .ok ([0xAA, 0xC8, i &&& 0xFF, (i >>> 8) &&& 0xFF] ++ padTrunc d ++ [0x55]) ∧
        (if d.length > 8 then padTrunc d = d.take 8
         else padTrunc d = d ++ List.replicate (8 - d.length) 0) ∧
        ([0xAA, 0xC8, i &&& 0xFF, (i >>> 8) &&& 0xFF] ++ padTrunc d ++ [0x55]).length = 13) ∧
    encode 0x35E (.str "HELLO") =
      .ok [0xAA, 0xC8, 0x5E, 0x03, 0x48, 0x45, 0x4C, 0x4C, 0x4F, 0x00, 0x00, 0x00, 0x55] := by
  constructor
  · intro i data hwt
    obtain ⟨d, hd⟩ := normalizeData_ok_of_wellTyped data hwt
    refine ⟨d, hd, ?_, padTrunc_cases d, ?_⟩
    · unfold encode
      rw [hd]
      rfl
    · exact frameBytes_padTrunc_length i d
  · rfl

/-- Witness for C2 at identifier 5 and payload `[1, 2, 3]`. -/
theorem c2_encode_correct_witness :
    ∃ d, normalizeData (.list [1, 2, 3]) = .ok d ∧
      encode 5 (.list [1, 2, 3]) =
        .ok ([0xAA, 0xC8, 5 &&& 0xFF, (5 >>> 8) &&& 0xFF] ++ padTrunc d ++ [0x55]) ∧
      (if d.length > 8 then padTrunc d = d.take 8
       else padTrunc d = d ++ List.replicate (8 - d.length) 0) ∧
      ([0xAA, 0xC8, 5 &&& 0xFF, (5 >>> 8) &&& 0xFF] ++ padTrunc d ++ [0x55]).length = 13 :=
  c2_encode_correct.1 5 (.list [1, 2, 3]) (by decide)

/-- C4 counterexample: the claim says the identifier is masked to its
low 11 bits, so that any value encodes like the value modulo 0x800; at
identifier 0x800 the code emits high byte 0x08, while 0x800 % 0x800 = 0
emits high byte 0x00, so the two frames differ. -/
theorem c4_counterexample :
    (encode 0x800 (.bytes [])).toOption ≠ (encode (0x800 % 0x800) (.bytes [])).toOption := by
  decide

/-- C4 (amended: the mask is the low 16 bits, not the low 11): for
every integer identifier passed to the frame-building portion of
`send`, the identifier is silently masked to its low 16 bits before
being placed on the wire — every value at or above 0x10000 wraps
(encodes identically to the value modulo 0x10000) rather than producing
an error, while values in [0x800, 0xFFFF] are encoded with their high
bits intact. -/
theorem c4_mask16 : ∀ (i : Nat) (data : PyData),
    encode i data = encode (i % 0x10000) data := by
  intro i data
  cases h : normalizeData data with
  | error e => simp [encode, h]
  | ok d =>
    simp only [encode, h]
    rw [frameBytes_mod]

/-- C5 counterexample: the claim quantifies over valid 12-byte wire
frames, but a valid wire frame — an output of the frame-building
portion of `send` — has 13 bytes, shown here at identifier 3 with
payload bytes 1..8. -/
theorem c5_counterexample :
    (frameBytes 3 [1, 2, 3, 4, 5, 6, 7, 8]).length = 13 ∧
    (frameBytes 3 [1, 2, 3, 4, 5, 6, 7, 8]).length ≠ 12 :=
  ⟨rfl, by decide⟩

/-- C5 (amended: wire frames have 13 bytes, not 12): for every pair of
valid wire frames, decoding twice in sequence from the byte stream
formed by the first frame, then one stray 0x00 byte, then the second
frame recovers both identifier-payload pairs exactly, the stray byte
being discarded by the sync scan for 0xAA. -/
theorem c5_resync (i1 i2 : Nat) (d1 d2 : List Nat)
    (h1 : i1 ≤ 0x7FF) (h2 : i2 ≤ 0x7FF)
    (hl1 : d1.length = 8) (hl2 : d2.length = 8) :
    receiveFrom (frameBytes i1 d1 ++ 0x00 :: frameBytes i2 d2) =
      some (.ok (i1, d1), 0x00 :: frameBytes i2 d2) ∧
    receiveFrom (0x00 :: frameBytes i2 d2) = some (.ok (i2, d2), []) := by
  constructor
  · exact receiveFrom_encode i1 d1 _ h1 hl1
  · rw [receiveFrom_cons_skip 0x00 _ (by decide)]
    exact receiveFrom_encode_nil i2 d2 h2 hl2

/-- Witness for C5 at identifiers 1 and 2 with concrete 8-byte
payloads. -/
theorem c5_resync_witness :
    receiveFrom (frameBytes 1 [1, 2, 3, 4, 5, 6, 7, 8] ++
        0x00 :: frameBytes 2 [9, 10, 11, 12, 13, 14, 15, 16]) =
      some (.ok (1, [1, 2, 3, 4, 5, 6, 7, 8]),
        0x00 :: frameBytes 2 [9, 10, 11, 12, 13, 14, 15, 16]) ∧
    receiveFrom (0x00 :: frameBytes 2 [9, 10, 11, 12, 13, 14, 15, 16]) =
      some (.ok (2, [9, 10, 11, 12, 13, 14, 15, 16]), []) :=
  c5_resync 1 2 [1, 2, 3, 4, 5, 6, 7, 8] [9, 10, 11, 12, 13, 14, 15, 16]
    (by norm_num) (by norm_num) rfl rfl

/-- C6: for every byte stream whose first start sentinel 0xAA is
followed by a byte other than 0xC8, the decode attempt reports the
invalid-command framing error having consumed exactly through that
byte — no renewed sync scan within the attempt — and a subsequent
decode call, resuming the sync scan on the remaining stream, succeeds
at the next 0xAA that begins a valid frame. -/
theorem c6_invalid_command (junk1 : List Nat) (hj1 : ∀ b ∈ junk1, b ≠ 0xAA)
    (x : Nat) (hx : x ≠ 0xC8)
    (junk2 : List Nat) (hj2 : ∀ b ∈ junk2, b ≠ 0xAA)
    (i : Nat) (d : List Nat) (hi : i ≤ 0x7FF) (hd : d.length = 8) :
    receiveFrom (junk1 ++ 0xAA :: x :: (junk2 ++ frameBytes i d)) =
      some (.error .invalidCommand, junk2 ++ frameBytes i d) ∧
    receiveFrom (junk2 ++ frameBytes i d) = some (.ok (i, d), []) := by
  constructor
  · rw [receiveFrom_junk junk1 _ hj1]
    exact receiveFrom_bad_cmd x _ hx
  · rw [receiveFrom_junk junk2 _ hj2]
    exact receiveFrom_encode_nil i d hi hd

/-- Witness for C6: a stray byte, then `0xAA 0x00`, then a stray byte,
then a valid frame for identifier 3. -/
theorem c6_invalid_command_witness :
    receiveFrom ([1] ++ 0xAA :: 0x00 :: ([2] ++ frameBytes 3 [0, 0, 0, 0, 0, 0, 0, 0])) =
      some (.error .invalidCommand, [2] ++ frameBytes 3 [0, 0, 0, 0, 0, 0, 0, 0]) ∧
    receiveFrom ([2] ++ frameBytes 3 [0, 0, 0, 0, 0, 0, 0, 0]) =
      some (.ok (3, [0, 0, 0, 0, 0, 0, 0, 0]), []) :=
  c6_invalid_command [1] (by decide) 0x00 (by decide) [2] (by decide) 3
    [0, 0, 0, 0, 0, 0, 0, 0] (by norm_num) rfl

/-- C7 counterexample: the claim locates the tail sentinel at the 12th
frame byte, but the 12th byte of a well-formed frame is the last
payload byte and the tail is the 13th; here a stream with a correct
sentinel, command byte, identifier bytes and 8 payload bytes whose 12th
byte is 99 (not 0x55) still decodes successfully — no invalid-tail
error — because its 13th byte is the tail. -/
theorem c7_counterexample :
    receiveFrom [0xAA, 0xC8, 0, 0, 1, 2, 3, 4, 5, 6, 7, 99, 0x55] =
      some (.ok (0, [1, 2, 3, 4, 5, 6, 7, 99]), []) ∧
    ([0xAA, 0xC8, 0, 0, 1, 2, 3, 4, 5, 6, 7, 99, 0x55] : List Nat)[11]? = some 99 ∧
    ([0xAA, 0xC8, 0, 0, 1, 2, 3, 4, 5, 6, 7, 99, 0x55] : List Nat)[12]? = some 0x55 :=
  ⟨rfl, rfl, rfl⟩

/-- C7 (amended: the tail is the final, 13th, frame byte): for every
byte stream whose first start sentinel is followed by a correct command
byte, identifier bytes and 8 payload bytes but whose final frame byte
is not 0x55, the decode attempt reports the invalid-tail framing error
instead of returning a frame, consuming the frame-sized prefix. -/
theorem c7_invalid_tail (junk : List Nat) (hjunk : ∀ b ∈ junk, b ≠ 0xAA)
    (il ih t : Nat) (d suffix : List Nat)
    (hd : d.length = 8) (ht : t ≠ 0x55) :
    receiveFrom (junk ++ 0xAA :: 0xC8 :: il :: ih :: (d ++ t :: suffix)) =
      some (.error .invalidTail, suffix) := by
  rw [receiveFrom_junk junk _ hjunk]
  obtain ⟨a, b, c, e, f, g, h1, h2, rfl⟩ := length_eight_exists d hd
  unfold receiveFrom
  rw [syncScan_cons_aa]
  simp [ht]

/-- Witness for C7: one stray byte, then a frame-shaped stream whose
final byte is 0 instead of 0x55. -/
theorem c7_invalid_tail_witness :
    receiveFrom ([9] ++ 0xAA :: 0xC8 :: 1 :: 0 :: ([1, 2, 3, 4, 5, 6, 7, 8] ++ 0 :: [7, 7])) =
      some (.error .invalidTail, [7, 7]) :=
  c7_invalid_tail [9] (by decide) 1 0 0 [1, 2, 3, 4, 5, 6, 7, 8] [7, 7] rfl (by decide)

/-- One step of the worker loop of lines 128-130, unfolded. -/
lemma receive_worker_succ (fuel : Nat) (st : CANState) (log : List (Nat × List Nat)) :
    receive_worker (fuel + 1) st log =
      if st.rx_running = false then (.flagStopped, st, log)
      else
        match receive st with
        | none => (.blocked, st, log)
        | some (.error e, st1) => (.errorCaught e, st1, log)
        | some (.ok (i, d), st1) => receive_worker fuel st1 (log ++ [(i, d)]) := rfl

/-- C3 counterexample: with the run flag set, a live worker, an open
port whose stream starts `0xAA 0x00` (a framing glitch) followed by a
perfectly valid frame, and fuel to spare, the worker exits with the
caught invalid-command error and delivers nothing to the callback —
the valid frame left in the stream (second conjunct) is never decoded.
The `try` of lines 127-132 wraps the whole `while` loop, so the framing
error ends the loop instead of being swallowed by it. -/
theorem c3_counterexample :
    receive_worker 4
      { ser := some { is_open := true,
                      rxBuf := [0xAA, 0x00] ++ frameBytes 1 [1, 2, 3, 4, 5, 6, 7, 8],
                      txBuf := [] },
        rx_thread := some true, rx_running := true } [] =
      (.errorCaught .invalidCommand,
       { ser := some { is_open := true,
                       rxBuf := frameBytes 1 [1, 2, 3, 4, 5, 6, 7, 8], txBuf := [] },
         rx_thread := some true, rx_running := true }, []) ∧
    receiveFrom (frameBytes 1 [1, 2, 3, 4, 5, 6, 7, 8]) =
      some (.ok (1, [1, 2, 3, 4, 5, 6, 7, 8]), []) :=
  ⟨rfl, rfl⟩

/-- C3 (amended): any exception raised by `receive` inside the worker —
framing errors included — escapes the `while` loop, is caught once by
the single surrounding `try`, and terminates the worker; the worker
also stops when the run flag is cleared, and continues looping only
after a successfully decoded frame has been delivered to the
callback. -/
theorem c3_worker_error_exits :
    (∀ (fuel : Nat) (st st1 : CANState) (log : List (Nat × List Nat)) (e : PyError),
       st.rx_running = true → receive st = some (.error e, st1) →
       receive_worker (fuel + 1) st log = (.errorCaught e, st1, log)) ∧
    (∀ (fuel : Nat) (st : CANState) (log : List (Nat × List Nat)),
       st.rx_running = false →
       receive_worker (fuel + 1) st log = (.flagStopped, st, log)) ∧
    (∀ (fuel : Nat) (st st1 : CANState) (log : List (Nat × List Nat))
       (i : Nat) (d : List Nat),
       st.rx_running = true → receive st = some (.ok (i, d), st1) →
       receive_worker (fuel + 1) st log = receive_worker fuel st1 (log ++ [(i, d)])) := by
  refine ⟨?_, ?_, ?_⟩
  · intro fuel st st1 log e hrun hrecv
    rw [receive_worker_succ, hrun]
    simp [hrecv]
  · intro fuel st log hrun
    rw [receive_worker_succ, hrun]
    simp
  · intro fuel st st1 log i d hrun hrecv
    rw [receive_worker_succ, hrun]
    simp [hrecv]

/-- Witness for C3 on a session whose stream is `0xAA 0x00`. -/
theorem c3_worker_error_exits_witness :
    receive_worker 1
      { ser := some { is_open := true, rxBuf := [0xAA, 0x00], txBuf := [] },
        rx_thread := some true, rx_running := true } [] =
      (.errorCaught .invalidCommand,
       { ser := some { is_open := true, rxBuf := [], txBuf := [] },
         rx_thread := some true, rx_running := true }, []) :=
  c3_worker_error_exits.1 0
    { ser := some { is_open := true, rxBuf := [0xAA, 0x00], txBuf := [] },
      rx_thread := some true, rx_running := true }
    { ser := some { is_open := true, rxBuf := [], txBuf := [] },
      rx_thread := some true, rx_running := true }
    [] .invalidCommand rfl rfl

/-- C8: calling `send` or `receive` before `open` (on the `__init__`
state) or after `close` (on any state) fails with the not-open error
and leaves the session state — transport buffers included — unchanged:
nothing is written to or read from the transport. -/
theorem c8_not_open_guard :
    (∀ (i : Nat) (data : PyData), send initState i data = (.error .notOpen, initState)) ∧
    receive initState = some (.error .notOpen, initState) ∧
    (∀ (st : CANState) (i : Nat) (data : PyData),
       send (close st) i data = (.error .notOpen, close st)) ∧
    (∀ st : CANState, receive (close st) = some (.error .notOpen, close st)) := by
  refine ⟨?_, rfl, ?_, ?_⟩
  · intro i data
    exact send_not_open _ i data rfl
  · intro st i data
    exact send_not_open _ i data (isOpen_close st)
  · intro st
    exact receive_not_open _ (isOpen_close st)

/-- C9: on a session whose receive worker is alive, `start_receive_loop`
reports that the loop is already running and changes nothing; starting
twice in a row always leaves the state of the first start, the second
call reporting already-running; and a fresh thread is started only when
no worker is alive — so a session never holds two live workers. -/
theorem c9_idempotent_start :
    (∀ st : CANState, st.rx_thread = some true →
       start_receive_loop st = (.alreadyRunning, st)) ∧
    (∀ st : CANState,
       (start_receive_loop (start_receive_loop st).2).1 = .alreadyRunning ∧
       (start_receive_loop (start_receive_loop st).2).2 = (start_receive_loop st).2) ∧
    (∀ st : CANState, (start_receive_loop st).1 = .started → st.rx_thread ≠ some true) := by
  refine ⟨?_, ?_, ?_⟩
  · intro st h
    unfold start_receive_loop
    rw [h]
  · intro st
    rcases st with ⟨ser, th, run⟩
    rcases th with _ | a
    · exact ⟨rfl, rfl⟩
    · cases a
      · exact ⟨rfl, rfl⟩
      · exact ⟨rfl, rfl⟩
  · intro st h hc
    unfold start_receive_loop at h
    rw [hc] at h
    simp at h

/-- Witness for C9 on a state holding a live worker. -/
theorem c9_idempotent_start_witness :
    start_receive_loop { ser := none, rx_thread := some true, rx_running := true } =
      (.alreadyRunning, { ser := none, rx_thread := some true, rx_running := true }) :=
  c9_idempotent_start.1
    { ser := none, rx_thread := some true, rx_running := true } rfl

/-- C10: there is a supplier behaviour — the reads for the identifier
bytes timing out empty after the sentinel and command byte were
consumed and a tail byte read to 0x55 — on which lines 88-103 of
`receive` raise the unguarded `IndexError` of `idl[0]` rather than a
framing error; and whenever both identifier reads return their
requested byte, the error branch is indeed limited to the two framing
errors. -/
theorem c10_index_error_gap :
    receiveAfterSync [0xC8] [] [] [] [0x55] = .error .indexError ∧
    (∀ (cmd idl idh data tl : List Nat) (e : PyError),
       idl ≠ [] → idh ≠ [] →
       receiveAfterSync cmd idl idh data tl = .error e →
       e = .invalidCommand ∨ e = .invalidTail) := by
  constructor
  · rfl
  · intro cmd idl idh data tl e hidl hidh h
    rcases cmd with _ | ⟨c, cmdr⟩
    · exact Or.inl (Except.error.inj h).symm
    · rcases tl with _ | ⟨t, tlr⟩
      · by_cases hc : c ≠ 0xC8
        · simp only [receiveAfterSync, if_pos hc] at h
          exact Or.inl (Except.error.inj h).symm
        · simp only [receiveAfterSync, if_neg hc] at h
          exact Or.inr (Except.error.inj h).symm
      · by_cases hc : c ≠ 0xC8
        · simp only [receiveAfterSync, if_pos hc] at h
          exact Or.inl (Except.error.inj h).symm
        · by_cases ht : t ≠ 0x55
          · simp only [receiveAfterSync, if_neg hc, if_pos ht] at h
            exact Or.inr (Except.error.inj h).symm
          · rcases idl with _ | ⟨il, idlr⟩
            · exact absurd rfl hidl
            · rcases idh with _ | ⟨ih, idhr⟩
              · exact absurd rfl hidh
              · simp only [receiveAfterSync, if_neg hc, if_neg ht] at h
                exact absurd h (by simp)

/-- Witness for C10: full identifier reads and a bad tail produce the
invalid-tail framing error. -/
theorem c10_index_error_gap_witness :
    receiveAfterSync [0xC8] [] [] [] [0x55] = .error .indexError ∧
    (PyError.invalidTail = PyError.invalidCommand ∨
     PyError.invalidTail = PyError.invalidTail) :=
  ⟨c10_index_error_gap.1,
   c10_index_error_gap.2 [0xC8] [1] [2] [] [0] .invalidTail
     (by decide) (by decide) rfl⟩

end WaveshareCAN
